import Mathlib

/-!
Shallow embedding of `src/analysis.py` of the stock-market-analyzer repository.

Modelling conventions:
* Python floats are modelled as rationals (`ℚ`).  Float square roots
  (`pandas.Series.std`, `np.sqrt`) are not rational, so every definition that
  needs one takes an abstract `sqrtFn : ℚ → ℚ` parameter; `ratSqrt` below is a
  concrete computable stand-in used by witnesses.
* Float NaN is modelled as `none : Option ℚ`.  NaN arises in the source from
  `pandas.Series.std` on fewer than two returns, from the `np.where` guard in
  the RSI computation, and (together with ±inf) from divisions by a zero
  volume mean; all those paths are modelled as `none`.  Python comparisons
  against NaN are false, which the `Option`-aware helpers reproduce.
* A division of plain Python floats by exactly zero raises
  `ZeroDivisionError`; this is modelled with `Except PyErr`.  `analyse_risk`
  wraps its whole body in `try/except` and turns any exception into an error
  dictionary; `calculate_risk_reward` has no such handler, so its exceptions
  escape to the caller.
* The process-global numpy random generator is modelled as an explicit stream
  `g : ℕ → ℕ` of draws; the i-th uniform choice from a list `l` is
  `l.getD (g i % l.length) 0`.
-/

namespace StockAnalyzer

/-- One bar of the "Time Series (Daily)" mapping: the engine only reads the
close (`"4. close"`) and volume (`"5. volume"`) fields, already parsed. -/
structure StockBar where
  close : ℚ
  volume : ℚ
deriving DecidableEq, Repr

/-- The `stock_data` input: the symbol from `"Meta Data"` and the daily time
series keyed by date (dates modelled as naturals, ordered as the dates are). -/
structure StockData where
  symbol : String
  timeSeries : List (ℕ × StockBar)
deriving DecidableEq, Repr

/-- Insert one dated bar into a date-sorted list (ascending). -/
def insertBar (e : ℕ × StockBar) : List (ℕ × StockBar) → List (ℕ × StockBar)
  | [] => [e]
  | x :: xs => if e.1 ≤ x.1 then e :: x :: xs else x :: insertBar e xs

/-- Models `df.sort_index(ascending=True)`: sort the bars by date. -/
def sortBars : List (ℕ × StockBar) → List (ℕ × StockBar)
  | [] => []
  | x :: xs => insertBar x (sortBars xs)

/-- Models `closes = df["4. close"].astype(float)` after the ascending sort. -/
def closesOf (sd : StockData) : List ℚ :=
  (sortBars sd.timeSeries).map (fun e => e.2.close)

/-- Models `volumes = df["5. volume"].astype(float)` after the ascending sort. -/
def volumesOf (sd : StockData) : List ℚ :=
  (sortBars sd.timeSeries).map (fun e => e.2.volume)

/-- Python `l[-k:]`: the last `min k (length l)` elements. -/
def takeLast (k : ℕ) (l : List ℚ) : List ℚ := l.drop (l.length - k)

/-- Models `Series.mean()` as a total rational (meaningful only on nonempty lists;
on `[]` pandas gives NaN, the callers below guard that case separately). -/
def meanD (l : List ℚ) : ℚ := l.sum / (l.length : ℚ)

/-- Models `closes.pct_change().dropna()`: `closes[i]/closes[i-1] - 1` for `i ≥ 1`. -/
def pctChange (closes : List ℚ) : List ℚ :=
  List.zipWith (fun a b => b / a - 1) closes closes.tail

/-- Models `daily_returns = closes.pct_change().dropna()`. -/
def dailyReturnsOf (sd : StockData) : List ℚ := pctChange (closesOf sd)

/-- Models `Series.std()` squared (sample variance, `ddof=1`); NaN (`none`) on fewer
than two observations, exactly as pandas. -/
def sampleVariance (l : List ℚ) : Option ℚ :=
  if l.length ≤ 1 then none
  else some ((l.map (fun x => (x - meanD l) ^ 2)).sum / ((l.length : ℚ) - 1))

/-- Models `volatility = daily_returns.std() * np.sqrt(252)`. -/
def volatilityRaw (sqrtFn : ℚ → ℚ) (sd : StockData) : Option ℚ :=
  (sampleVariance (dailyReturnsOf sd)).map (fun v => sqrtFn v * sqrtFn 252)

/-- Models `current_price = float(df["4. close"].iloc[-1])`. -/
def currentPriceOf (sd : StockData) : ℚ := (closesOf sd).getLastD 0

/-- Models `drawdown = (current_price - stop_loss) / current_price` (the body guards
the `current_price = 0` exception before this is used). -/
def drawdownRaw (sd : StockData) (stop_loss : ℚ) : ℚ :=
  (currentPriceOf sd - stop_loss) / currentPriceOf sd

/-- Lines 54-68: base liquidity risk `1 - recent_volume/avg_volume`, scaled by
`(1 + user_volume/recent_volume)` when that ratio exceeds 5%.  A zero volume
mean makes the float computation non-finite (inf/NaN); modelled as `none`. -/
def liquidityRaw (sd : StockData) (user_volume : Option ℚ) : Option ℚ :=
  let avg_volume := meanD (volumesOf sd)
  let recent_volume := meanD (takeLast 20 (volumesOf sd))
  if avg_volume = 0 ∨ recent_volume = 0 then none
  else
    let base := 1 - recent_volume / avg_volume
    match user_volume with
    | none => some base
    | some u =>
        if 1/20 < u / recent_volume then some (base * (1 + u / recent_volume))
        else some base

/-- Models `delta = closes.diff()`: first entry NaN, then consecutive differences. -/
def deltasOf (closes : List ℚ) : List (Option ℚ) :=
  match closes with
  | [] => []
  | _ :: tl => none :: List.zipWith (fun a b => some (b - a)) closes tl

/-- Models `gain = delta.where(delta > 0, 0)` (NaN fails the comparison, giving 0). -/
def gainsOf (closes : List ℚ) : List ℚ :=
  (deltasOf closes).map (fun d =>
    match d with
    | some x => if 0 < x then x else 0
    | none => 0)

/-- Models `loss = -delta.where(delta < 0, 0)` (NaN fails the comparison, giving 0). -/
def lossesOf (closes : List ℚ) : List ℚ :=
  (deltasOf closes).map (fun d =>
    match d with
    | some x => if x < 0 then -x else 0
    | none => 0)

/-- Models `rolling(window=14, min_periods=1).mean()`: at index `i` the mean of the
last at most 14 entries ending at `i`. -/
def rollingMean14 (l : List ℚ) : List ℚ :=
  (List.range l.length).map (fun i => meanD (takeLast 14 (l.take (i + 1))))

/-- Lines 82-84: `avg_loss_safe = np.where(avg_loss == 0, nan, avg_loss)`,
`rs = avg_gain / avg_loss_safe`, `rsi = 100 - 100/(1+rs)`; a zero average loss
makes the RSI of that day NaN (`none`). -/
def rsiOf (closes : List ℚ) : List (Option ℚ) :=
  List.zipWith
    (fun gn lo => if lo = 0 then none else some (100 - 100 / (1 + gn / lo)))
    (rollingMean14 (gainsOf closes)) (rollingMean14 (lossesOf closes))

/-- Models `bearish_freq = (rsi < 30).mean()`: NaN entries compare false, the mean is
over the full series length. -/
def bearishRaw (sd : StockData) : ℚ :=
  let rsi := rsiOf (closesOf sd)
  ((rsi.countP (fun x =>
      match x with
      | some v => decide (v < 30)
      | none => false)) : ℚ) / (rsi.length : ℚ)

/-- Models `norm_volatility = min(volatility / 0.5, 1.0)` (NaN propagates: Python
`min(nan, 1.0)` is nan). -/
def normVolatility (sqrtFn : ℚ → ℚ) (sd : StockData) : Option ℚ :=
  (volatilityRaw sqrtFn sd).map (fun v => min (v / (1/2)) 1)

/-- Models `norm_drawdown = min(drawdown / 0.3, 1.0)`. -/
def normDrawdown (sd : StockData) (stop_loss : ℚ) : ℚ :=
  min (drawdownRaw sd stop_loss / (3/10)) 1

/-- Models `norm_liquidity = min(liquidity_risk / 0.7, 1.0)`. -/
def normLiquidity (sd : StockData) (user_volume : Option ℚ) : Option ℚ :=
  (liquidityRaw sd user_volume).map (fun x => min (x / (7/10)) 1)

/-- Models `norm_bearish = min(bearish_freq / 0.3, 1.0)`. -/
def normBearish (sd : StockData) : ℚ :=
  min (bearishRaw sd / (3/10)) 1

/-- NaN-propagating float addition. -/
def nadd : Option ℚ → Option ℚ → Option ℚ
  | some a, some b => some (a + b)
  | _, _ => none

/-- Models `(norm_volatility + norm_drawdown + norm_liquidity + norm_bearish) / 4`. -/
def compositeAvg (sqrtFn : ℚ → ℚ) (sd : StockData) (stop_loss : ℚ)
    (user_volume : Option ℚ) : Option ℚ :=
  (nadd (nadd (nadd (normVolatility sqrtFn sd) (some (normDrawdown sd stop_loss)))
      (normLiquidity sd user_volume)) (some (normBearish sd))).map (fun s => s / 4)

/-- Lines 144-146: `"HIGH" if avg > 0.7 else "MEDIUM" if avg > 0.4 else
"LOW"`; a NaN average fails both comparisons and yields `"LOW"`. -/
def riskLevelStr (sqrtFn : ℚ → ℚ) (sd : StockData) (stop_loss : ℚ)
    (user_volume : Option ℚ) : String :=
  match compositeAvg sqrtFn sd stop_loss user_volume with
  | none => "LOW"
  | some a => if 7/10 < a then "HIGH" else if 4/10 < a then "MEDIUM" else "LOW"

/-- Models `user_volume/recent_volume if user_volume else None` (Python truthiness:
`0` is falsy). -/
def volumeImpactOf (sd : StockData) (user_volume : Option ℚ) : Option ℚ :=
  match user_volume with
  | some u =>
      if u = 0 then none
      else some (u / meanD (takeLast 20 (volumesOf sd)))
  | none => none

/-- The `"risk_analysis"` sub-dictionary of the report. -/
structure RiskAnalysis where
  volatility : Option ℚ
  drawdown_risk : ℚ
  liquidity_risk : Option ℚ
  bearish_frequency : ℚ
  risk_level : String
deriving DecidableEq, Repr

/-- The success dictionary returned by `analyse_risk` (the base64 plot is
presentation-layer output and not modelled). -/
structure Report where
  symbol : String
  current_price : ℚ
  target_selling_price : ℚ
  stop_loss : ℚ
  user_volume : Option ℚ
  recent_avg_volume : ℚ
  volume_impact : Option ℚ
  risk_analysis : RiskAnalysis
deriving DecidableEq, Repr

/-- Python exceptions that can escape the modelled numeric code. -/
inductive PyErr
  | zeroDivisionError
deriving DecidableEq, Repr

/-- Models `str(e)` for the modelled exceptions. -/
def pyErrMsg : PyErr → String
  | .zeroDivisionError => "float division by zero"

/-- The dictionary returned by `analyse_risk`: either an `{"error": msg}`
dictionary or the full report. -/
inductive AnalyseResult
  | err (msg : String)
  | ok (r : Report)
deriving DecidableEq, Repr

/-- The body of `analyse_risk` after the empty-series guard.  The only plain
Python float division in it is `drawdown`, which raises `ZeroDivisionError`
when the current price is exactly 0; everything else is pandas/numpy float
arithmetic, which never raises. -/
def analyse_body (sqrtFn : ℚ → ℚ) (sd : StockData)
    (target_selling_price stop_loss : ℚ) (user_volume : Option ℚ) :
    Except PyErr Report :=
  if currentPriceOf sd = 0 then .error .zeroDivisionError
  else .ok {
    symbol := sd.symbol
    current_price := currentPriceOf sd
    target_selling_price := target_selling_price
    stop_loss := stop_loss
    user_volume := user_volume
    recent_avg_volume := meanD (takeLast 20 (volumesOf sd))
    volume_impact := volumeImpactOf sd user_volume
    risk_analysis := {
      volatility := volatilityRaw sqrtFn sd
      drawdown_risk := drawdownRaw sd stop_loss
      liquidity_risk := liquidityRaw sd user_volume
      bearish_frequency := bearishRaw sd
      risk_level := riskLevelStr sqrtFn sd stop_loss user_volume } }

/-- Models `analyse_risk` (lines 14-153): the empty-series guard returns the error
dictionary, and the surrounding `try/except` turns any exception from the
body into an `{"error": f"Error in risk analysis: {e}"}` dictionary. -/
def analyse_risk (sqrtFn : ℚ → ℚ) (sd : StockData)
    (target_selling_price stop_loss : ℚ) (user_volume : Option ℚ) :
    AnalyseResult :=
  if sd.timeSeries.isEmpty then .err "No time series data available"
  else
    match analyse_body sqrtFn sd target_selling_price stop_loss user_volume with
    | .error e => .err ("Error in risk analysis: " ++ pyErrMsg e)
    | .ok r => .ok r

/-- Python float comparison `c < s` where `s` may be NaN (always false). -/
def nltOpt (c : ℚ) : Option ℚ → Bool
  | none => false
  | some s => decide (c < s)

/-- Models `get_rating` (lines 156-165). -/
def get_rating (sharpe : Option ℚ) (rr_ratio : ℚ) : String :=
  if nltOpt (3/2) sharpe && decide (2 < rr_ratio) then "⭐️⭐️⭐️⭐️⭐️ EXCELLENT"
  else if nltOpt 1 sharpe && decide (3/2 < rr_ratio) then "⭐️⭐️⭐️⭐️ GOOD"
  else if nltOpt (1/2) sharpe && decide (1 < rr_ratio) then "⭐️⭐️⭐️ FAIR"
  else "⭐️⭐️ WEAK"

/-- Models `price_path = entry_price * (1 + random_returns).cumprod()`: the k-th
entry is `entry * Π_{i ≤ k} (1 + r_i)`; the path has one entry per return. -/
def pricePath (entry : ℚ) (rs : List ℚ) : List ℚ :=
  (List.scanl (fun p r => p * (1 + r)) entry rs).tail

/-- Models `price_path.max()` (meaningful on the nonempty paths the simulator uses). -/
def pathMax (p : List ℚ) : ℚ := p.foldl max p.headI

/-- Models `price_path.min()`. -/
def pathMin (p : List ℚ) : ℚ := p.foldl min p.headI

/-- Lines 202-208: the classification of one trial.  Success when the path maximum
reaches the target; otherwise failure when the path minimum reaches the stop;
otherwise success exactly when the final price strictly exceeds the entry. -/
def classifyTrial (entry target stop : ℚ) (rs : List ℚ) : Bool :=
  let p := pricePath entry rs
  if target ≤ pathMax p then true
  else if pathMin p ≤ stop then false
  else decide (entry < p.getLastD 0)

/-- Models `np.random.choice(recent_returns, size=30)` for trial `t`: draws number
`30*t, …, 30*t+29` of the global stream, each reduced uniformly into the
lookback return list. -/
def sampleReturns (g : ℕ → ℕ) (returns : List ℚ) (t : ℕ) : List ℚ :=
  (List.range 30).map (fun k => returns.getD (g (30 * t + k) % returns.length) 0)

/-- Models `hits_target` after the simulation loop. -/
def successCount (g : ℕ → ℕ) (returns : List ℚ) (entry target stop : ℚ)
    (n_simulations : ℕ) : ℕ :=
  (List.range n_simulations).countP
    (fun t => classifyTrial entry target stop (sampleReturns g returns t))

/-- Models `estimate_success_probability` (lines 168-210), with the global numpy
generator made explicit as the stream `g`. -/
def estimate_success_probability (g : ℕ → ℕ) (sd : StockData)
    (entry_price target_price stop_loss : ℚ)
    (n_simulations lookback_days : ℕ) : ℚ :=
  if sd.timeSeries.isEmpty then 1/2
  else
    let recent_returns := takeLast lookback_days (pctChange (closesOf sd))
    if recent_returns.length < 5 then 1/2
    else
      (successCount g recent_returns entry_price target_price stop_loss
          n_simulations : ℚ) / (n_simulations : ℚ)

/-- The `"reward_analysis"` sub-dictionary. -/
structure RewardAnalysis where
  sharpe_ratio : Option ℚ
  annualized_return_pct : ℚ
  risk_reward_ratio : ℚ
  success_probability : ℚ
  rating : String
deriving DecidableEq, Repr

/-- The dictionary returned by `calculate_risk_reward` when it returns:
either the propagated error dictionary, or the risk report merged with the
reward analysis. -/
inductive RRResult
  | errDict (msg : String)
  | report (r : Report) (w : RewardAnalysis)
deriving DecidableEq, Repr

/-- Plain Python float division: raises `ZeroDivisionError` on a zero
denominator. -/
def pyDiv (a b : ℚ) : Except PyErr ℚ :=
  if b = 0 then .error .zeroDivisionError else .ok (a / b)

/-- Models `calculate_risk_reward` (lines 213-273).  It has no `try/except`, so the
`ZeroDivisionError`s of the Sharpe ratio (zero volatility) and of the
risk/reward ratio (success probability 1, or stop equal to current price)
escape to the caller, hence the `Except` result. -/
def calculate_risk_reward (sqrtFn : ℚ → ℚ) (g : ℕ → ℕ) (sd : StockData)
    (target_price stop_loss : ℚ) (user_volume : Option ℚ)
    (holding_period_days risk_free_rate : ℚ) : Except PyErr RRResult :=
  match analyse_risk sqrtFn sd target_price stop_loss user_volume with
  | .err m => .ok (.errDict m)
  | .ok r => do
    let current_price := r.current_price
    let volatility := r.risk_analysis.volatility
    let tc ← pyDiv target_price current_price
    let potential_return_pct := tc - 1
    let hf ← pyDiv 252 holding_period_days
    let annualized_return := potential_return_pct * hf
    let sharpe_ratio : Option ℚ ←
      match volatility with
      | none => pure none
      | some v => do
          let s ← pyDiv (annualized_return - risk_free_rate) v
          pure (some s)
    let success_prob :=
      estimate_success_probability g sd current_price target_price stop_loss 1000 60
    let sc ← pyDiv stop_loss current_price
    let risk_reward_ratio ←
      pyDiv (success_prob * potential_return_pct) ((1 - success_prob) * |sc - 1|)
    pure (.report r {
      sharpe_ratio := sharpe_ratio
      annualized_return_pct := annualized_return * 100
      risk_reward_ratio := risk_reward_ratio
      success_probability := success_prob
      rating := get_rating sharpe_ratio risk_reward_ratio })

/-- A computable stand-in for the float square root, used to instantiate the
`sqrtFn` oracle in concrete evaluations; it is exact on 0 (`ratSqrt 0 = 0`),
which is the only value the theorems below rely on. -/
def ratSqrt (q : ℚ) : ℚ :=
  (Nat.sqrt q.num.toNat : ℚ) / (Nat.sqrt q.den : ℚ)

/-- Spec-side wording of the trial classification of the Monte Carlo section:
success when the path maximum reaches the target; otherwise, when the path
minimum stays above the stop, success exactly when the final price strictly
exceeds the entry. -/
def specSuccess (entry target stop : ℚ) (rs : List ℚ) : Prop :=
  target ≤ pathMax (pricePath entry rs) ∨
    (pathMax (pricePath entry rs) < target ∧ stop < pathMin (pricePath entry rs) ∧
      entry < (pricePath entry rs).getLastD 0)

/-! Concrete inputs used by counterexamples and witnesses. -/

/-- Builds an input from dated (close, volume) rows. -/
def mkSD (bars : List (ℕ × ℚ × ℚ)) : StockData :=
  ⟨"TEST", bars.map (fun e => (e.1, ⟨e.2.1, e.2.2⟩))⟩

/-- An input with an empty daily time series. -/
def emptyInput : StockData := mkSD []

/-- Three bars with ascending closes and constant volume 1000. -/
def threeBarInput : StockData :=
  mkSD [(0, (100, 1000)), (1, (101, 1000)), (2, (102, 1000))]

/-- A single bar (close 100, volume 1000). -/
def oneBarInput : StockData := mkSD [(0, (100, 1000))]

/-- Ten bars with constant close 100 and volume 1000: every daily return is
exactly 0, so the annualized volatility is exactly 0. -/
def constTenInput : StockData :=
  mkSD ((List.range 10).map (fun i => (i, ((100 : ℚ), (1000 : ℚ)))))

/-- Six closes 100, 200, 20, 20, 20, 20 with constant volume: the lookback
returns are `[1, -9/10, 0, 0, 0]`. -/
def swingInput : StockData :=
  mkSD [(0, (100, 1000)), (1, (200, 1000)), (2, (20, 1000)),
        (3, (20, 1000)), (4, (20, 1000)), (5, (20, 1000))]

/-- A stream drawing return 0, then return 1, then return 2 forever. -/
def gUp : ℕ → ℕ := fun i => if i = 0 then 0 else if i = 1 then 1 else 2

/-- The same draws as `gUp` with the first two swapped. -/
def gDown : ℕ → ℕ := fun i => if i = 0 then 1 else if i = 1 then 0 else 2

/-- Twenty-one bars whose recent (last 20) average volume 2000 exceeds the
full-series average volume 40100/21, making the base liquidity risk negative. -/
def heavyRecentVolumeInput : StockData :=
  mkSD ((0, ((100 : ℚ), (100 : ℚ))) ::
    (List.range 20).map (fun i => (i + 1, ((100 : ℚ), (2000 : ℚ)))))

end StockAnalyzer

namespace StockAnalyzer

/-! Shared helper lemmas. -/

/-- The cap-then-min normalization is bounded above by 1, is the identity
below the cap, and preserves the sign of a negative raw value (no floor). -/
theorem min_cap_spec (x c : ℚ) (hc : 0 < c) :
    min (x / c) 1 ≤ 1 ∧ (x / c < 1 → min (x / c) 1 = x / c) ∧
      (x < 0 → min (x / c) 1 < 0) := by
  refine ⟨min_le_right _ _, fun h => min_eq_left h.le, fun hx => ?_⟩
  exact lt_of_le_of_lt (min_le_left _ _) (div_neg_of_neg_of_pos hx hc)

/-- The source trial classification agrees with the spec wording. -/
theorem classifyTrial_iff_specSuccess (entry target stop : ℚ) (rs : List ℚ) :
    classifyTrial entry target stop rs = true ↔ specSuccess entry target stop rs := by
  unfold classifyTrial specSuccess
  by_cases h1 : target ≤ pathMax (pricePath entry rs)
  · simp [h1]
  · by_cases h2 : pathMin (pricePath entry rs) ≤ stop
    · simp [h1, h2, not_le.mp h1, not_lt.mpr h2]
    · simp [h1, h2, not_le.mp h1, not_le.mp h2]

/-- An empty time series has no closes. -/
theorem closesOf_nil (sd : StockData) (h : sd.timeSeries = []) : closesOf sd = [] := by
  unfold closesOf sortBars
  rw [h]
  rfl

/-- With at least two daily returns the sample volatility is a defined
(non-NaN) value. -/
theorem volatilityRaw_defined (sqrtFn : ℚ → ℚ) (sd : StockData)
    (h2 : 2 ≤ (dailyReturnsOf sd).length) :
    volatilityRaw sqrtFn sd =
      some (sqrtFn ((((dailyReturnsOf sd).map
          (fun x => (x - meanD (dailyReturnsOf sd)) ^ 2)).sum) /
        (((dailyReturnsOf sd).length : ℚ) - 1)) * sqrtFn 252) := by
  unfold volatilityRaw sampleVariance
  rw [if_neg (by omega)]
  rfl

/-- With nonzero volume means the liquidity risk is a defined value. -/
theorem liquidityRaw_defined (sd : StockData) (uv : Option ℚ)
    (ha : meanD (volumesOf sd) ≠ 0) (hr : meanD (takeLast 20 (volumesOf sd)) ≠ 0) :
    ∃ l, liquidityRaw sd uv = some l := by
  unfold liquidityRaw
  rw [if_neg (by push_neg; exact ⟨ha, hr⟩)]
  cases uv with
  | none => exact ⟨_, rfl⟩
  | some u =>
      by_cases h : 1/20 < u / meanD (takeLast 20 (volumesOf sd))
      · exact ⟨_, by dsimp only; rw [if_pos h]⟩
      · exact ⟨_, by dsimp only; rw [if_neg h]⟩

/-- Above the 5% threshold the user volume scales the base liquidity risk by
the factor `1 + userVolume/recentVolume`. -/
theorem liquidityRaw_above_threshold (sd : StockData) (u : ℚ)
    (ha : meanD (volumesOf sd) ≠ 0) (hr : meanD (takeLast 20 (volumesOf sd)) ≠ 0)
    (h : 1/20 < u / meanD (takeLast 20 (volumesOf sd))) :
    liquidityRaw sd (some u) =
      some ((1 - meanD (takeLast 20 (volumesOf sd)) / meanD (volumesOf sd)) *
        (1 + u / meanD (takeLast 20 (volumesOf sd)))) := by
  unfold liquidityRaw
  rw [if_neg (by push_neg; exact ⟨ha, hr⟩)]
  dsimp only
  rw [if_pos h]

/-! Claim theorems. -/

/-- C1 (amended): with at least 5 lookback returns and a positive trial
count, each trial is classified as a success exactly when the simulated
30-step path maximum reaches or exceeds the target, otherwise — when the path
minimum does not reach the stop — exactly when the final price strictly
exceeds the entry; the returned probability equals successCount/trialCount
and lies in [0, 1].  (The path maximum, unlike the final price, does depend
on the order of the sampled returns; the order-independence parenthetical of
the original claim is dropped, see the counterexample.) -/
theorem c1_trial_classification (g : ℕ → ℕ) (sd : StockData)
    (entry target stop : ℚ) (nSims lookback : ℕ)
    (h5 : 5 ≤ (takeLast lookback (pctChange (closesOf sd))).length)
    (hn : 0 < nSims) :
    estimate_success_probability g sd entry target stop nSims lookback =
      (successCount g (takeLast lookback (pctChange (closesOf sd)))
          entry target stop nSims : ℚ) / (nSims : ℚ) ∧
    0 ≤ estimate_success_probability g sd entry target stop nSims lookback ∧
    estimate_success_probability g sd entry target stop nSims lookback ≤ 1 ∧
    ∀ rs : List ℚ,
      (classifyTrial entry target stop rs = true ↔ specSuccess entry target stop rs) := by
  have hts : ¬(sd.timeSeries.isEmpty = true) := by
    intro h
    rw [closesOf_nil sd (List.isEmpty_iff.mp h)] at h5
    simp [takeLast, pctChange] at h5
  have heq : estimate_success_probability g sd entry target stop nSims lookback =
      (successCount g (takeLast lookback (pctChange (closesOf sd)))
          entry target stop nSims : ℚ) / (nSims : ℚ) := by
    unfold estimate_success_probability
    rw [if_neg hts, if_neg (by omega)]
  have hcount : successCount g (takeLast lookback (pctChange (closesOf sd)))
      entry target stop nSims ≤ nSims := by
    have := List.countP_le_length
      (l := List.range nSims)
      (p := fun t => classifyTrial entry target stop
        (sampleReturns g (takeLast lookback (pctChange (closesOf sd))) t))
    simpa [successCount] using this
  refine ⟨heq, ?_, ?_, fun rs => classifyTrial_iff_specSuccess entry target stop rs⟩
  · rw [heq]
    positivity
  · rw [heq]
    rw [div_le_one (by exact_mod_cast hn)]
    exact_mod_cast hcount

/-- Witness for C1 at a concrete input: the swing series, one trial. -/
theorem c1_trial_classification_witness :
    (5 ≤ (takeLast 60 (pctChange (closesOf swingInput))).length ∧ 0 < 1) ∧
    (estimate_success_probability gUp swingInput 1 (3/2) 0 1 60 =
        (successCount gUp (takeLast 60 (pctChange (closesOf swingInput)))
            1 (3/2) 0 1 : ℚ) / (1 : ℚ) ∧
      0 ≤ estimate_success_probability gUp swingInput 1 (3/2) 0 1 60 ∧
      estimate_success_probability gUp swingInput 1 (3/2) 0 1 60 ≤ 1 ∧
      ∀ rs : List ℚ,
        (classifyTrial 1 (3/2) 0 rs = true ↔ specSuccess 1 (3/2) 0 rs)) :=
  ⟨⟨by decide, by decide⟩,
    c1_trial_classification gUp swingInput 1 (3/2) 0 1 60 (by decide) (by decide)⟩

set_option maxRecDepth 8000 in
/-- C1 counterexample to the order-independence parenthetical: two runs that
sample exactly the same multiset of returns (a swap of the first two draws)
classify the single trial differently, so the target-reached check is not
independent of the order of the sampled returns. -/
theorem c1_order_counterexample :
    estimate_success_probability gUp swingInput 1 (3/2) 0 1 60 = 1 ∧
    estimate_success_probability gDown swingInput 1 (3/2) 0 1 60 = 0 ∧
    (sampleReturns gUp (takeLast 60 (pctChange (closesOf swingInput))) 0).Perm
      (sampleReturns gDown (takeLast 60 (pctChange (closesOf swingInput))) 0) := by
  refine ⟨by with_unfolding_all rfl, by with_unfolding_all rfl, ?_⟩
  have h1 : sampleReturns gUp (takeLast 60 (pctChange (closesOf swingInput))) 0
      = 1 :: (-9/10) :: List.replicate 28 0 := by with_unfolding_all rfl
  have h2 : sampleReturns gDown (takeLast 60 (pctChange (closesOf swingInput))) 0
      = (-9/10) :: 1 :: List.replicate 28 0 := by with_unfolding_all rfl
  rw [h1, h2]
  exact List.Perm.swap _ _ _

/-- C2: for every series with at least two daily returns and nonzero volume
means, each normalized risk field equals min(raw/cap, 1) with caps 1/2, 3/10,
7/10, 3/10; it is at most 1, equals raw/cap whenever raw/cap < 1, and a
negative raw value yields a negative normalized value (no floor at 0). -/
theorem c2_normalization (sqrtFn : ℚ → ℚ) (sd : StockData) (stop_loss : ℚ)
    (uv : Option ℚ)
    (h2 : 2 ≤ (dailyReturnsOf sd).length)
    (ha : meanD (volumesOf sd) ≠ 0)
    (hr : meanD (takeLast 20 (volumesOf sd)) ≠ 0) :
    (∃ v, volatilityRaw sqrtFn sd = some v ∧
        normVolatility sqrtFn sd = some (min (v / (1/2)) 1) ∧
        min (v / (1/2)) 1 ≤ 1 ∧
        (v / (1/2) < 1 → normVolatility sqrtFn sd = some (v / (1/2))) ∧
        (v < 0 → ∃ n, normVolatility sqrtFn sd = some n ∧ n < 0)) ∧
    (normDrawdown sd stop_loss = min (drawdownRaw sd stop_loss / (3/10)) 1 ∧
        normDrawdown sd stop_loss ≤ 1 ∧
        (drawdownRaw sd stop_loss / (3/10) < 1 →
          normDrawdown sd stop_loss = drawdownRaw sd stop_loss / (3/10)) ∧
        (drawdownRaw sd stop_loss < 0 → normDrawdown sd stop_loss < 0)) ∧
    (∃ l, liquidityRaw sd uv = some l ∧
        normLiquidity sd uv = some (min (l / (7/10)) 1) ∧
        min (l / (7/10)) 1 ≤ 1 ∧
        (l / (7/10) < 1 → normLiquidity sd uv = some (l / (7/10))) ∧
        (l < 0 → ∃ n, normLiquidity sd uv = some n ∧ n < 0)) ∧
    (normBearish sd = min (bearishRaw sd / (3/10)) 1 ∧
        normBearish sd ≤ 1 ∧
        (bearishRaw sd / (3/10) < 1 → normBearish sd = bearishRaw sd / (3/10)) ∧
        (bearishRaw sd < 0 → normBearish sd < 0)) := by
  refine ⟨?_, ?_, ?_, ?_⟩
  · obtain ⟨v, hv⟩ : ∃ v, volatilityRaw sqrtFn sd = some v :=
      ⟨_, volatilityRaw_defined sqrtFn sd h2⟩
    obtain ⟨hb, hid, hneg⟩ := min_cap_spec v (1/2) (by norm_num)
    refine ⟨v, hv, ?_, hb, fun h => ?_, fun h => ?_⟩
    · unfold normVolatility
      rw [hv]
      rfl
    · unfold normVolatility
      rw [hv]
      exact congrArg some (hid h)
    · refine ⟨min (v / (1/2)) 1, ?_, hneg h⟩
      unfold normVolatility
      rw [hv]
      rfl
  · obtain ⟨hb, hid, hneg⟩ := min_cap_spec (drawdownRaw sd stop_loss) (3/10) (by norm_num)
    exact ⟨rfl, hb, fun h => hid h, fun h => hneg h⟩
  · obtain ⟨l, hl⟩ := liquidityRaw_defined sd uv ha hr
    obtain ⟨hb, hid, hneg⟩ := min_cap_spec l (7/10) (by norm_num)
    refine ⟨l, hl, ?_, hb, fun h => ?_, fun h => ?_⟩
    · unfold normLiquidity
      rw [hl]
      rfl
    · unfold normLiquidity
      rw [hl]
      exact congrArg some (hid h)
    · refine ⟨min (l / (7/10)) 1, ?_, hneg h⟩
      unfold normLiquidity
      rw [hl]
      rfl
  · obtain ⟨hb, hid, hneg⟩ := min_cap_spec (bearishRaw sd) (3/10) (by norm_num)
    exact ⟨rfl, hb, fun h => hid h, fun h => hneg h⟩

end StockAnalyzer

namespace StockAnalyzer

/-- Witness for C2 at the three-bar input. -/
theorem c2_normalization_witness :
    (2 ≤ (dailyReturnsOf threeBarInput).length ∧
      meanD (volumesOf threeBarInput) ≠ 0 ∧
      meanD (takeLast 20 (volumesOf threeBarInput)) ≠ 0) ∧
    ((∃ v, volatilityRaw ratSqrt threeBarInput = some v ∧
        normVolatility ratSqrt threeBarInput = some (min (v / (1/2)) 1) ∧
        min (v / (1/2)) 1 ≤ 1 ∧
        (v / (1/2) < 1 → normVolatility ratSqrt threeBarInput = some (v / (1/2))) ∧
        (v < 0 → ∃ n, normVolatility ratSqrt threeBarInput = some n ∧ n < 0)) ∧
    (normDrawdown threeBarInput 95 = min (drawdownRaw threeBarInput 95 / (3/10)) 1 ∧
        normDrawdown threeBarInput 95 ≤ 1 ∧
        (drawdownRaw threeBarInput 95 / (3/10) < 1 →
          normDrawdown threeBarInput 95 = drawdownRaw threeBarInput 95 / (3/10)) ∧
        (drawdownRaw threeBarInput 95 < 0 → normDrawdown threeBarInput 95 < 0)) ∧
    (∃ l, liquidityRaw threeBarInput none = some l ∧
        normLiquidity threeBarInput none = some (min (l / (7/10)) 1) ∧
        min (l / (7/10)) 1 ≤ 1 ∧
        (l / (7/10) < 1 → normLiquidity threeBarInput none = some (l / (7/10))) ∧
        (l < 0 → ∃ n, normLiquidity threeBarInput none = some n ∧ n < 0)) ∧
    (normBearish threeBarInput = min (bearishRaw threeBarInput / (3/10)) 1 ∧
        normBearish threeBarInput ≤ 1 ∧
        (bearishRaw threeBarInput / (3/10) < 1 →
          normBearish threeBarInput = bearishRaw threeBarInput / (3/10)) ∧
        (bearishRaw threeBarInput < 0 → normBearish threeBarInput < 0))) :=
  ⟨⟨by decide, by with_unfolding_all decide, by with_unfolding_all decide⟩,
    c2_normalization ratSqrt threeBarInput 95 none (by decide)
      (by with_unfolding_all decide) (by with_unfolding_all decide)⟩

/-- C3: an empty time series yields the error dictionary (the EmptySeries
data error), and any error dictionary from the risk analysis short-circuits
the composite risk/reward operation, which returns it unchanged with no
reward fields attached. -/
theorem c3_empty_series_and_propagation (sqrtFn : ℚ → ℚ) (g : ℕ → ℕ)
    (sd : StockData) (target stop_loss : ℚ) (uv : Option ℚ)
    (holding rf : ℚ) :
    (sd.timeSeries = [] →
      analyse_risk sqrtFn sd target stop_loss uv = .err "No time series data available") ∧
    ∀ m, analyse_risk sqrtFn sd target stop_loss uv = .err m →
      calculate_risk_reward sqrtFn g sd target stop_loss uv holding rf =
        .ok (.errDict m) := by
  constructor
  · intro h
    unfold analyse_risk
    rw [if_pos (by simpa using h)]
  · intro m hm
    unfold calculate_risk_reward
    rw [hm]

/-- Witness for C3 at the empty input. -/
theorem c3_empty_series_and_propagation_witness :
    analyse_risk ratSqrt emptyInput 110 95 none = .err "No time series data available" ∧
    calculate_risk_reward ratSqrt gUp emptyInput 110 95 none 30 (1/25) =
      .ok (.errDict "No time series data available") := by
  have h := c3_empty_series_and_propagation ratSqrt gUp emptyInput 110 95 none 30 (1/25)
  exact ⟨h.1 rfl, h.2 _ (h.1 rfl)⟩

set_option maxRecDepth 8000 in
/-- C4: a constant price series makes the annualized volatility exactly 0,
and the reward calculation then raises an uncaught ZeroDivisionError instead
of encoding the zero-volatility condition as a sentinel plus flag in a
structurally complete report. -/
theorem c4_zero_volatility_crashes :
    volatilityRaw ratSqrt constTenInput = some 0 ∧
    calculate_risk_reward ratSqrt gUp constTenInput 110 95 none 30 (1/25) =
      .error .zeroDivisionError := by
  constructor
  · with_unfolding_all rfl
  · with_unfolding_all rfl

/-- C5: whenever the most recent lookback window holds fewer than 5 daily
returns, the simulator returns the neutral probability 1/2 without running
any trials. -/
theorem c5_fallback (g : ℕ → ℕ) (sd : StockData) (entry target stop : ℚ)
    (nSims lookback : ℕ)
    (h : (takeLast lookback (pctChange (closesOf sd))).length < 5) :
    estimate_success_probability g sd entry target stop nSims lookback = 1/2 := by
  unfold estimate_success_probability
  split
  · rfl
  · simp only [if_pos h]

/-- Witness for C5: three bars give only two lookback returns. -/
theorem c5_fallback_witness :
    (takeLast 60 (pctChange (closesOf threeBarInput))).length < 5 ∧
      estimate_success_probability gUp threeBarInput 100 110 95 1000 60 = 1/2 :=
  ⟨by decide, c5_fallback gUp threeBarInput 100 110 95 1000 60 (by decide)⟩

set_option maxRecDepth 8000 in
/-- C6 counterexample: with a negative base liquidity risk (recent average
volume above the full-series average), two user volumes both above the 5%
threshold give a strictly smaller raw liquidity risk for the larger volume. -/
theorem c6_nonmonotone_counterexample :
    1/20 < (200 : ℚ) / meanD (takeLast 20 (volumesOf heavyRecentVolumeInput)) ∧
    1/20 < (2000 : ℚ) / meanD (takeLast 20 (volumesOf heavyRecentVolumeInput)) ∧
    (200 : ℚ) < 2000 ∧
    liquidityRaw heavyRecentVolumeInput (some 200) = some (-209/4010) ∧
    liquidityRaw heavyRecentVolumeInput (some 2000) = some (-38/401) ∧
    (-38/401 : ℚ) < -209/4010 := by
  have hm : meanD (takeLast 20 (volumesOf heavyRecentVolumeInput)) = 2000 := by
    with_unfolding_all rfl
  refine ⟨?_, ?_, by norm_num, by with_unfolding_all rfl,
    by with_unfolding_all rfl, by norm_num⟩
  · rw [hm]
    norm_num
  · rw [hm]
    norm_num

/-- C6 (amended): when the base liquidity risk is nonnegative (recent average
volume at most the full-series average), increasing the user volume above the
5% threshold never decreases the raw liquidity risk. -/
theorem c6_amended_monotone (sd : StockData) (u₁ u₂ : ℚ)
    (hr : 0 < meanD (takeLast 20 (volumesOf sd)))
    (hle : meanD (takeLast 20 (volumesOf sd)) ≤ meanD (volumesOf sd))
    (h₁ : 1/20 < u₁ / meanD (takeLast 20 (volumesOf sd)))
    (h₁₂ : u₁ < u₂) :
    ∃ l₁ l₂, liquidityRaw sd (some u₁) = some l₁ ∧
      liquidityRaw sd (some u₂) = some l₂ ∧ l₁ ≤ l₂ := by
  have ha : 0 < meanD (volumesOf sd) := lt_of_lt_of_le hr hle
  have hu : u₁ / meanD (takeLast 20 (volumesOf sd)) <
      u₂ / meanD (takeLast 20 (volumesOf sd)) := by gcongr
  have h₂ : 1/20 < u₂ / meanD (takeLast 20 (volumesOf sd)) := h₁.trans hu
  have hbase : 0 ≤ 1 - meanD (takeLast 20 (volumesOf sd)) / meanD (volumesOf sd) := by
    rw [sub_nonneg]
    exact (div_le_one ha).mpr hle
  refine ⟨_, _, liquidityRaw_above_threshold sd u₁ ha.ne' hr.ne' h₁,
    liquidityRaw_above_threshold sd u₂ ha.ne' hr.ne' h₂, ?_⟩
  have h1u : 1 + u₁ / meanD (takeLast 20 (volumesOf sd)) ≤
      1 + u₂ / meanD (takeLast 20 (volumesOf sd)) := by linarith
  exact mul_le_mul_of_nonneg_left h1u hbase

/-- Witness for the amended C6 at the three-bar input. -/
theorem c6_amended_monotone_witness :
    (0 < meanD (takeLast 20 (volumesOf threeBarInput)) ∧
      meanD (takeLast 20 (volumesOf threeBarInput)) ≤ meanD (volumesOf threeBarInput) ∧
      1/20 < (100 : ℚ) / meanD (takeLast 20 (volumesOf threeBarInput)) ∧
      (100 : ℚ) < 200) ∧
    ∃ l₁ l₂, liquidityRaw threeBarInput (some 100) = some l₁ ∧
      liquidityRaw threeBarInput (some 200) = some l₂ ∧ l₁ ≤ l₂ :=
  ⟨⟨by with_unfolding_all decide, by with_unfolding_all decide,
      by with_unfolding_all decide, by decide⟩,
    c6_amended_monotone threeBarInput 100 200 (by with_unfolding_all decide)
      (by with_unfolding_all decide) (by with_unfolding_all decide) (by decide)⟩

end StockAnalyzer

namespace StockAnalyzer

/-- C7 counterexample: on a single-bar series the risk analysis does not
raise an insufficient-data error; it returns a full result dictionary (with
NaN volatility and risk level LOW). -/
theorem c7_one_bar_counterexample :
    analyse_risk ratSqrt oneBarInput 110 95 none =
      .ok ⟨"TEST", 100, 110, 95, none, 1000, none, ⟨none, 1/20, some 0, 0, "LOW"⟩⟩ := by
  with_unfolding_all rfl

/-- C7 (amended): on every series with exactly one bar (and a nonzero close),
the risk analysis returns a normal result whose volatility field is NaN
instead of raising an insufficient-data error. -/
theorem c7_amended_one_bar (sqrtFn : ℚ → ℚ) (sym : String) (d : ℕ) (b : StockBar)
    (target stop_loss : ℚ) (uv : Option ℚ) (hc : b.close ≠ 0) :
    ∃ r, analyse_risk sqrtFn ⟨sym, [(d, b)]⟩ target stop_loss uv = .ok r ∧
      r.risk_analysis.volatility = none := by
  have hcp : currentPriceOf ⟨sym, [(d, b)]⟩ = b.close := rfl
  refine ⟨{ symbol := sym
            current_price := currentPriceOf ⟨sym, [(d, b)]⟩
            target_selling_price := target
            stop_loss := stop_loss
            user_volume := uv
            recent_avg_volume := meanD (takeLast 20 (volumesOf ⟨sym, [(d, b)]⟩))
            volume_impact := volumeImpactOf ⟨sym, [(d, b)]⟩ uv
            risk_analysis := {
              volatility := volatilityRaw sqrtFn ⟨sym, [(d, b)]⟩
              drawdown_risk := drawdownRaw ⟨sym, [(d, b)]⟩ stop_loss
              liquidity_risk := liquidityRaw ⟨sym, [(d, b)]⟩ uv
              bearish_frequency := bearishRaw ⟨sym, [(d, b)]⟩
              risk_level := riskLevelStr sqrtFn ⟨sym, [(d, b)]⟩ stop_loss uv } }, ?_, ?_⟩
  · unfold analyse_risk
    rw [if_neg (by simp)]
    unfold analyse_body
    rw [if_neg (by rw [hcp]; exact hc)]
  · rfl

/-- Witness for the amended C7 at the one-bar input. -/
theorem c7_amended_one_bar_witness :
    (StockBar.mk 100 1000).close ≠ 0 ∧
    ∃ r, analyse_risk ratSqrt ⟨"TEST", [(0, StockBar.mk 100 1000)]⟩ 110 95 none = .ok r ∧
      r.risk_analysis.volatility = none :=
  ⟨by decide, c7_amended_one_bar ratSqrt "TEST" 0 (StockBar.mk 100 1000) 110 95 none (by decide)⟩

/-- C8: the simulation output is a deterministic function of the random
draw stream: two streams that agree on the 30·trialCount draws the simulation
consumes produce identical success probabilities.  (The source has no
injectable generator; the stream models the process-global numpy state.) -/
theorem c8_determinism (g₁ g₂ : ℕ → ℕ) (sd : StockData) (entry target stop : ℚ)
    (nSims lookback : ℕ) (hg : ∀ i, i < 30 * nSims → g₁ i = g₂ i) :
    estimate_success_probability g₁ sd entry target stop nSims lookback =
      estimate_success_probability g₂ sd entry target stop nSims lookback := by
  have hsc : successCount g₁ (takeLast lookback (pctChange (closesOf sd)))
        entry target stop nSims =
      successCount g₂ (takeLast lookback (pctChange (closesOf sd)))
        entry target stop nSims := by
    unfold successCount
    apply List.countP_congr
    intro t ht
    have htn : t < nSims := List.mem_range.mp ht
    have hsr : sampleReturns g₁ (takeLast lookback (pctChange (closesOf sd))) t =
        sampleReturns g₂ (takeLast lookback (pctChange (closesOf sd))) t := by
      unfold sampleReturns
      apply List.map_congr_left
      intro k hk
      have hk30 : k < 30 := List.mem_range.mp hk
      rw [hg (30 * t + k) (by omega)]
    rw [hsr]
  unfold estimate_success_probability
  dsimp only
  rw [hsc]

/-- Witness for C8 with identical streams. -/
theorem c8_determinism_witness :
    (∀ i, i < 30 * 1000 → gUp i = gUp i) ∧
    estimate_success_probability gUp threeBarInput 100 110 95 1000 60 =
      estimate_success_probability gUp threeBarInput 100 110 95 1000 60 :=
  ⟨fun _ _ => rfl,
    c8_determinism gUp gUp threeBarInput 100 110 95 1000 60 (fun _ _ => rfl)⟩

/-- C9: for well-formed input (defined volatility and liquidity, nonempty
series, nonzero current price) the reported risk level is HIGH when the
average of the four normalized scores exceeds 7/10, MEDIUM when it exceeds
4/10 but not 7/10, and LOW otherwise. -/
theorem c9_composite_risk_level (sqrtFn : ℚ → ℚ) (sd : StockData)
    (target stop_loss : ℚ) (uv : Option ℚ)
    (h2 : 2 ≤ (dailyReturnsOf sd).length)
    (ha : meanD (volumesOf sd) ≠ 0)
    (hr : meanD (takeLast 20 (volumesOf sd)) ≠ 0)
    (hts : sd.timeSeries ≠ [])
    (hc : currentPriceOf sd ≠ 0) :
    ∃ nv nl r, normVolatility sqrtFn sd = some nv ∧ normLiquidity sd uv = some nl ∧
      analyse_risk sqrtFn sd target stop_loss uv = .ok r ∧
      r.risk_analysis.risk_level =
        (if 7/10 < (nv + normDrawdown sd stop_loss + nl + normBearish sd) / 4 then "HIGH"
         else if 4/10 < (nv + normDrawdown sd stop_loss + nl + normBearish sd) / 4 then "MEDIUM"
         else "LOW") := by
  obtain ⟨v, hv⟩ : ∃ v, volatilityRaw sqrtFn sd = some v :=
    ⟨_, volatilityRaw_defined sqrtFn sd h2⟩
  obtain ⟨l, hl⟩ := liquidityRaw_defined sd uv ha hr
  have hnv : normVolatility sqrtFn sd = some (min (v / (1/2)) 1) := by
    unfold normVolatility
    rw [hv]
    rfl
  have hnl : normLiquidity sd uv = some (min (l / (7/10)) 1) := by
    unfold normLiquidity
    rw [hl]
    rfl
  have hcomp : compositeAvg sqrtFn sd stop_loss uv =
      some ((min (v / (1/2)) 1 + normDrawdown sd stop_loss + min (l / (7/10)) 1 +
        normBearish sd) / 4) := by
    unfold compositeAvg
    rw [hnv, hnl]
    rfl
  have hlevel : riskLevelStr sqrtFn sd stop_loss uv =
      (if 7/10 < (min (v / (1/2)) 1 + normDrawdown sd stop_loss + min (l / (7/10)) 1 +
          normBearish sd) / 4 then "HIGH"
       else if 4/10 < (min (v / (1/2)) 1 + normDrawdown sd stop_loss + min (l / (7/10)) 1 +
          normBearish sd) / 4 then "MEDIUM"
       else "LOW") := by
    unfold riskLevelStr
    rw [hcomp]
  refine ⟨min (v / (1/2)) 1, min (l / (7/10)) 1,
    { symbol := sd.symbol
      current_price := currentPriceOf sd
      target_selling_price := target
      stop_loss := stop_loss
      user_volume := uv
      recent_avg_volume := meanD (takeLast 20 (volumesOf sd))
      volume_impact := volumeImpactOf sd uv
      risk_analysis := {
        volatility := volatilityRaw sqrtFn sd
        drawdown_risk := drawdownRaw sd stop_loss
        liquidity_risk := liquidityRaw sd uv
        bearish_frequency := bearishRaw sd
        risk_level := riskLevelStr sqrtFn sd stop_loss uv } }, hnv, hnl, ?_, hlevel⟩
  unfold analyse_risk
  rw [if_neg (by simpa using hts)]
  unfold analyse_body
  rw [if_neg hc]

/-- Witness for C9 at the three-bar input. -/
theorem c9_composite_risk_level_witness :
    (2 ≤ (dailyReturnsOf threeBarInput).length ∧
      meanD (volumesOf threeBarInput) ≠ 0 ∧
      meanD (takeLast 20 (volumesOf threeBarInput)) ≠ 0 ∧
      threeBarInput.timeSeries ≠ [] ∧
      currentPriceOf threeBarInput ≠ 0) ∧
    ∃ nv nl r, normVolatility ratSqrt threeBarInput = some nv ∧
      normLiquidity threeBarInput none = some nl ∧
      analyse_risk ratSqrt threeBarInput 110 95 none = .ok r ∧
      r.risk_analysis.risk_level =
        (if 7/10 < (nv + normDrawdown threeBarInput 95 + nl + normBearish threeBarInput) / 4
          then "HIGH"
         else if 4/10 < (nv + normDrawdown threeBarInput 95 + nl +
            normBearish threeBarInput) / 4 then "MEDIUM"
         else "LOW") :=
  ⟨⟨by decide, by with_unfolding_all decide, by with_unfolding_all decide,
      by decide, by decide⟩,
    c9_composite_risk_level ratSqrt threeBarInput 110 95 none (by decide)
      (by with_unfolding_all decide) (by with_unfolding_all decide)
      (by decide) (by decide)⟩

/-- C10: the risk analysis is total at its interface: every input yields
either an error dictionary or a complete report, and never both. -/
theorem c10_total_interface (sqrtFn : ℚ → ℚ) (sd : StockData)
    (target stop_loss : ℚ) (uv : Option ℚ) :
    ((∃ m, analyse_risk sqrtFn sd target stop_loss uv = .err m) ∨
      (∃ r, analyse_risk sqrtFn sd target stop_loss uv = .ok r)) ∧
    ¬((∃ m, analyse_risk sqrtFn sd target stop_loss uv = .err m) ∧
      (∃ r, analyse_risk sqrtFn sd target stop_loss uv = .ok r)) := by
  constructor
  · cases h : analyse_risk sqrtFn sd target stop_loss uv with
    | err m => exact .inl ⟨m, rfl⟩
    | ok r => exact .inr ⟨r, rfl⟩
  · rintro ⟨⟨m, hm⟩, ⟨r, hrr⟩⟩
    rw [hm] at hrr
    exact AnalyseResult.noConfusion hrr

end StockAnalyzer
